import Mathlib

/-!
Shallow embedding of the ECDL client orchestrator
(`src/client/client/main.cpp`): the pending-point cache and its callback
producer, the submission pump loop, the status-poll state machine, and the
`main` entry point.  Machine integers (`BigInteger`, `unsigned int`,
`size_t`) are modelled as `Nat`; the arbitrary-precision `BigInteger`
library never overflows, and the `size_t` quantities involved (cache sizes,
thresholds) are compared without truncation in the source.
-/

/-- Problem parameters (`ECDLPParams`): prime modulus `p`, group order `n`,
curve coefficients `a`, `b`, generator `(gx, gy)`, target `(qx, qy)`, and
the distinguished-bits threshold `dBits`. -/
structure ECDLPParams where
  p : Nat
  n : Nat
  a : Nat
  b : Nat
  gx : Nat
  gy : Nat
  qx : Nat
  qy : Nat
  dBits : Nat
deriving DecidableEq, Repr

/-- Payload of the engine callback (`struct CallbackParameters`): starting
coefficients `aStart`, `bStart`, final point `(x, y)`, walk length. -/
structure CallbackParameters where
  aStart : Nat
  bStart : Nat
  x : Nat
  y : Nat
  length : Nat
deriving DecidableEq, Repr

/-- A verified distinguished point (`DistinguishedPoint p(a, b, x, y, length)`),
the unit stored in `_pointsCache` and transmitted to the server. -/
structure DistinguishedPoint where
  a : Nat
  b : Nat
  x : Nat
  y : Nat
  length : Nat
deriving DecidableEq, Repr

/-- Client configuration (`ClientConfig _config`), loaded once at startup.
Only the fields `main.cpp` reads. -/
structure ClientConfig where
  device : Nat
  blocks : Nat
  threads : Nat
  pointsPerThread : Nat
  serverHost : String
  serverPort : Nat
  pointCacheSize : Nat
deriving DecidableEq, Repr

/-- The server's reply to `getParameters` (`ParamsMsg`): the parameter
fields plus the 32-entry jump table (`rx`/`ry` arrays). -/
structure ParamsMsg where
  p : Nat
  n : Nat
  a : Nat
  b : Nat
  gx : Nat
  gy : Nat
  qx : Nat
  qy : Nat
  dBits : Nat
  rx : Fin 32 → Nat
  ry : Fin 32 → Nat

/-- The file-scope mutable globals of `main.cpp` gathered into one state
record: `_params`, `_rx`/`_ry` (32-entry jump table arrays), `_id`,
`_config`, `_pointsCache`, `_running`, and the engine handle `_context`
(modelled by an optional numeric handle: `none` is the `NULL` pointer). -/
structure GlobalState where
  params : ECDLPParams
  rx : Fin 32 → Nat
  ry : Fin 32 → Nat
  idStr : String
  config : ClientConfig
  pointsCache : List DistinguishedPoint
  running : Bool
  context : Option Nat

/-- The curve-membership primitive consumed by `verifyPoint`.
Modelled from the spec: `ECCurve::pointExists` lives in the external `ecc`
library, which is not under `src/`; per §4.4 it is a pure function of the
current `ProblemParameters` and the point's coordinates, so it is carried
as an opaque predicate parameter. -/
def PointExistsFn : Type := ECDLPParams → Nat → Nat → Bool

/-- `verifyPoint(x, y)`: builds the curve from `_params` and asks the
membership primitive whether `(x, y)` is on it. -/
def verifyPoint (px : PointExistsFn) (st : GlobalState) (x y : Nat) : Bool :=
  px st.params x y

/-- `addPointToCache(a, b, x, y, length)`: appends
`DistinguishedPoint(a, b, x, y, length)` to `_pointsCache` under the cache
lock (the lock is modelled by the atomicity of this function). -/
def addPointToCache (st : GlobalState) (a b x y : Nat) (length : Nat) : GlobalState :=
  { st with pointsCache := st.pointsCache ++ [⟨a, b, x, y, length⟩] }

/-- `pointFoundCallback(p)`: verify the candidate's point; if invalid, log
the diagnostics and return (no state change); if valid, cache the
distinguished point. -/
def pointFoundCallback (px : PointExistsFn) (st : GlobalState)
    (cb : CallbackParameters) : GlobalState :=
  if verifyPoint px st cb.x cb.y then
    addPointToCache st cb.aStart cb.bStart cb.x cb.y cb.length
  else
    st

/-- The snapshot copy loop in `sendPointsThread`:
`for(int i = 0; i < _pointsCache.size(); i++) points.push_back(_pointsCache[i])`. -/
def copyPoints (l : List DistinguishedPoint) : List DistinguishedPoint :=
  List.ofFn l.get

/-- Observable effects of one submission-pump cycle: `submitted = some pts`
when `submitPoints(_id, pts)` was called this cycle, `none` when no network
call was made. -/
structure PumpEffects where
  submitted : Option (List DistinguishedPoint)

/-- One iteration of the `sendPointsThread` loop body (the region between
`_pointsMutex.grab()` and `_pointsMutex.release()`; the lock makes it
atomic).  `submitOk` is whether the `submitPoints` network call succeeds
(`false` models the call throwing).  If the cache size is below
`_config.pointCacheSize` nothing happens; otherwise the cache is copied and
submitted; on success the cache is cleared, on failure it is left as is. -/
def pumpIter (st : GlobalState) (submitOk : Bool) : GlobalState × PumpEffects :=
  if st.config.pointCacheSize ≤ st.pointsCache.length then
    let points := copyPoints st.pointsCache
    if submitOk then
      ({ st with pointsCache := [] }, ⟨some points⟩)
    else
      (st, ⟨some points⟩)
  else
    (st, ⟨none⟩)

theorem copyPoints_eq (l : List DistinguishedPoint) : copyPoints l = l :=
  List.ofFn_get l

/-- The status the server reports, as `pollConnections` discriminates it:
`SERVER_STATUS_RUNNING`, `SERVER_STATUS_STOPPED` (distinct integer
constants from `client.h`), or anything else. -/
inductive ServerStatus where
  | running
  | stopped
  | other
deriving DecidableEq, Repr

/-- Outcome of the `getStatus` call: a status value, or the call throwing
(transport failure). -/
inductive StatusResult where
  | err
  | ok (s : ServerStatus)
deriving DecidableEq, Repr

/-- The external inputs consumed by one iteration of the `pollConnections`
loop: the `getStatus` outcome, the `getParameters` reply (`none` models the
call throwing; consulted only when it is actually made), the engine's
`isRunning()` answer (consulted only when queried), and the identity of a
freshly `new`-ed context (consulted only when one is created). -/
structure PollEnv where
  status : StatusResult
  paramsMsg : Option ParamsMsg
  engineRunning : Bool
  newHandle : Nat

/-- Observable effects of one `pollConnections` iteration:
`initLaunches` counts context creations (`getNewContext` + `init()` +
launching `runningThread`), `relaunches` counts bare `runningThread`
relaunches on a live context that stopped, `stops` counts `stop()` calls,
`fetchAttempted`/`fetchSucceeded` describe the `getParameters` call,
`sleep60`/`sleep300` the backoff taken, and `exitLoop` whether the
iteration ends with `break`. -/
structure PollEffects where
  initLaunches : Nat
  relaunches : Nat
  stops : Nat
  fetchAttempted : Bool
  fetchSucceeded : Bool
  sleep60 : Bool
  sleep300 : Bool
  exitLoop : Bool
deriving DecidableEq, Repr

/-- `PollEffects` with everything zeroed, for branches that do nothing. -/
def noPollEffects : PollEffects :=
  ⟨0, 0, 0, false, false, false, false, false⟩

/-- `getParameters(_params, _rx, _ry)`: asks the server for the problem
parameters; on a thrown transport error it logs and returns `false`
leaving the globals untouched; on success it assigns every `ECDLPParams`
field and copies the 32 jump-table entries, returning `true`. -/
def getParameters (st : GlobalState) (resp : Option ParamsMsg) : GlobalState × Bool :=
  match resp with
  | none => (st, false)
  | some m =>
      ({ st with
          params := ⟨m.p, m.n, m.a, m.b, m.gx, m.gy, m.qx, m.qy, m.dBits⟩,
          rx := m.rx,
          ry := m.ry }, true)

/-- One iteration of the `pollConnections` while-loop body.  On a
`getStatus` failure: log, sleep 60 s, `continue` (no state change).  On
`RUNNING` with `_context == NULL`: call `getParameters`; on failure just
log (retry next cycle); on success create the context, `init` it and
launch `runningThread`.  On `RUNNING` with a live context that reports
`!isRunning()`: relaunch `runningThread`.  On `STOPPED`: `stop()` and
`delete` the context if one exists (the pointer is not nulled), then
`break`.  Any other status falls through to the 5-minute sleep. -/
def pollIter (st : GlobalState) (env : PollEnv) : GlobalState × PollEffects :=
  match env.status with
  | StatusResult.err =>
      (st, { noPollEffects with sleep60 := true })
  | StatusResult.ok ServerStatus.running =>
      match st.context with
      | none =>
          let r := getParameters st env.paramsMsg
          if r.2 then
            ({ r.1 with context := some env.newHandle },
             { noPollEffects with
                initLaunches := 1, fetchAttempted := true,
                fetchSucceeded := true, sleep300 := true })
          else
            (r.1, { noPollEffects with fetchAttempted := true, sleep300 := true })
      | some _ =>
          if env.engineRunning then
            (st, { noPollEffects with sleep300 := true })
          else
            (st, { noPollEffects with relaunches := 1, sleep300 := true })
  | StatusResult.ok ServerStatus.stopped =>
      match st.context with
      | some _ => (st, { noPollEffects with stops := 1, exitLoop := true })
      | none => (st, { noPollEffects with exitLoop := true })
  | StatusResult.ok ServerStatus.other =>
      (st, { noPollEffects with sleep300 := true })

/-- The `pollConnections` while-loop run on a list of per-iteration
environments: iterates while `_running` holds, stopping early on `break`.
Returns the final state and the effects of the iterations executed. -/
def pollRun (st : GlobalState) : List PollEnv → GlobalState × List PollEffects
  | [] => (st, [])
  | env :: rest =>
      if st.running then
        let r := pollIter st env
        if r.2.exitLoop then
          (r.1, [r.2])
        else
          let rr := pollRun r.1 rest
          (rr.1, r.2 :: rr.2)
      else
        (st, [])

/-- Entry to `pollConnections`: `_running = true;` before the loop starts
(the file-scope initializer `bool _running = true` gives the same value at
startup). -/
def pollEntry (st : GlobalState) : GlobalState :=
  { st with running := true }

/-- Number of successful parameter fetches across a run's effects. -/
def countFetchSuccess (effs : List PollEffects) : Nat :=
  (effs.filter (fun e => e.fetchSucceeded)).length

/-- One concurrent step of the process after `pollConnections` has started:
a poll-loop iteration, a submission-pump iteration, or an engine callback.
Used to state properties that hold across every interleaving. -/
inductive Step where
  | poll (env : PollEnv)
  | pump (submitOk : Bool)
  | callback (px : PointExistsFn) (cb : CallbackParameters)

/-- Apply one `Step` to the global state. -/
def stepRun (st : GlobalState) : Step → GlobalState
  | Step.poll env => (pollIter st env).1
  | Step.pump submitOk => (pumpIter st submitOk).1
  | Step.callback px cb => pointFoundCallback px st cb

/-- Apply a sequence of interleaved steps. -/
def runSteps (st : GlobalState) : List Step → GlobalState
  | [] => st
  | s :: rest => runSteps (stepRun st s) rest

/-- The loop guard of both `sendPointsThread` and `pollConnections`:
the shared `_running` flag. -/
def pumpLoopCond (st : GlobalState) : Bool :=
  st.running

/-- Outcome of running `main`: the process exit code and which of the
observable actions happened before exit.  `contactedServer` is true exactly
when `enterEventLoop` ran (it is where the `ServerConnection` is created
and the server first contacted). -/
structure MainOutcome where
  exitCode : Nat
  printedUsage : Bool
  ranBenchmark : Bool
  contactedServer : Bool
deriving DecidableEq, Repr

/-- `main(argc, argv)` modelled on its external inputs: `cfg` is the result
of `loadConfig("settings.json")` (`none` models the call throwing),
`cudaBuild` whether the binary was compiled with `_CUDA`, `cudaOk` the
result of `cudaInit()` (consulted only on the CUDA build), and `args` the
arguments after the program name (`argv[1..]`).  Order follows the source:
config load, CUDA device check, then the `-b` benchmark flag, then the
usage message when no argument remains, else normal operation. -/
def mainRun (cfg : Option ClientConfig) (cudaBuild cudaOk : Bool)
    (args : List String) : MainOutcome :=
  match cfg with
  | none => ⟨1, false, false, false⟩
  | some _ =>
      if cudaBuild && !cudaOk then
        ⟨1, false, false, false⟩
      else
        match args with
        | a :: _ =>
            if a = "-b" then
              ⟨0, false, true, false⟩
            else
              ⟨0, false, false, true⟩
        | [] => ⟨0, true, false, false⟩

/-! Concrete sample data used by the witness theorems. -/

/-- A membership oracle accepting every point. -/
def samplePx : PointExistsFn := fun _ _ _ => true

/-- A sample distinguished point. -/
def samplePoint : DistinguishedPoint := ⟨1, 2, 3, 4, 5⟩

/-- A sample configuration with submission threshold 2. -/
def sampleConfig : ClientConfig := ⟨0, 1, 4, 8, "localhost", 9000, 2⟩

/-- Sample problem parameters. -/
def sampleParams : ECDLPParams := ⟨97, 89, 2, 3, 5, 7, 11, 13, 20⟩

/-- A sample server parameters reply. -/
def sampleMsg : ParamsMsg :=
  ⟨101, 103, 4, 5, 6, 7, 8, 9, 16, fun _ => 0, fun _ => 1⟩

/-- A sample global state: threshold 2, two cached points, no engine. -/
def sampleState : GlobalState :=
  ⟨sampleParams, fun _ => 0, fun _ => 0, "prob1", sampleConfig,
   [samplePoint, samplePoint], true, none⟩

/-- A sample candidate delivered to the callback. -/
def sampleCb : CallbackParameters := ⟨10, 20, 30, 40, 50⟩

/-- A sample poll environment: the server reports `RUNNING` and answers the
parameter request. -/
def sampleEnvRun : PollEnv :=
  ⟨StatusResult.ok ServerStatus.running, some sampleMsg, false, 7⟩

/-- A sample poll environment where `getStatus` throws. -/
def sampleEnvErr : PollEnv := ⟨StatusResult.err, none, false, 0⟩

/-- C1: if `submitPoints` throws, the `catch` block only logs: the cache is
not cleared, so after the cycle it equals the cache before the cycle, and
the next successful cycle submits those same points. -/
theorem pump_failure_preserves_cache (st : GlobalState) :
    (pumpIter st false).1.pointsCache = st.pointsCache ∧
    (st.config.pointCacheSize ≤ st.pointsCache.length →
      (pumpIter (pumpIter st false).1 true).2.submitted = some st.pointsCache) := by
  by_cases h : st.config.pointCacheSize ≤ st.pointsCache.length <;>
    simp [pumpIter, copyPoints_eq, h]

/-- Witness for C1 at a concrete above-threshold state. -/
theorem pump_failure_preserves_cache_witness :
    (pumpIter sampleState false).1.pointsCache = sampleState.pointsCache ∧
    (pumpIter (pumpIter sampleState false).1 true).2.submitted
      = some sampleState.pointsCache :=
  ⟨(pump_failure_preserves_cache sampleState).1,
   (pump_failure_preserves_cache sampleState).2 (by decide)⟩

/-- C2: when the threshold is met and `submitPoints` succeeds, the snapshot
sent equals the cache contents at the time of the attempt and the cache is
cleared — the lock held across copy-submit-clear makes the cycle atomic, so
no element is lost and none duplicated. -/
theorem pump_success_clears_cache (st : GlobalState)
    (h : st.config.pointCacheSize ≤ st.pointsCache.length) :
    (pumpIter st true).2.submitted = some st.pointsCache ∧
    (pumpIter st true).1.pointsCache = [] := by
  simp [pumpIter, copyPoints_eq, h]

/-- Witness for C2 at a concrete above-threshold state. -/
theorem pump_success_clears_cache_witness :
    (pumpIter sampleState true).2.submitted = some sampleState.pointsCache ∧
    (pumpIter sampleState true).1.pointsCache = [] :=
  pump_success_clears_cache sampleState (by decide)

/-- C4: a submission network call happens in a pump cycle exactly when the
cache size has reached `_config.pointCacheSize`; below the threshold the
cycle makes no network call. -/
theorem pump_submits_iff_threshold (st : GlobalState) (submitOk : Bool) :
    ((pumpIter st submitOk).2.submitted).isSome = true ↔
      st.config.pointCacheSize ≤ st.pointsCache.length := by
  by_cases h : st.config.pointCacheSize ≤ st.pointsCache.length <;>
    cases submitOk <;> simp [pumpIter, h]

/-- Witness for C4: at the sample state the call is made, and mpr applies. -/
theorem pump_submits_iff_threshold_witness :
    ((pumpIter sampleState true).2.submitted).isSome = true :=
  (pump_submits_iff_threshold sampleState true).mpr (by decide)

/-- C3: a candidate failing curve membership leaves the state (hence the
cache's size and contents) unchanged; a candidate passing it appends
exactly one `DistinguishedPoint(aStart, bStart, x, y, length)` at the end
of the cache. -/
theorem callback_cache_behavior (px : PointExistsFn) (st : GlobalState)
    (cb : CallbackParameters) :
    (px st.params cb.x cb.y = false → pointFoundCallback px st cb = st) ∧
    (px st.params cb.x cb.y = true →
      (pointFoundCallback px st cb).pointsCache
        = st.pointsCache ++ [⟨cb.aStart, cb.bStart, cb.x, cb.y, cb.length⟩] ∧
      (pointFoundCallback px st cb).pointsCache.length
        = st.pointsCache.length + 1 ∧
      (pointFoundCallback px st cb).pointsCache.getLast?
        = some ⟨cb.aStart, cb.bStart, cb.x, cb.y, cb.length⟩) := by
  constructor
  · intro h
    simp [pointFoundCallback, verifyPoint, h]
  · intro h
    simp [pointFoundCallback, verifyPoint, addPointToCache, h,
      List.getLast?_append_cons]

/-- Witness for C3: with an all-accepting oracle the sample candidate is
appended at the end of the sample cache. -/
theorem callback_cache_behavior_witness :
    (pointFoundCallback samplePx sampleState sampleCb).pointsCache
      = sampleState.pointsCache
        ++ [⟨sampleCb.aStart, sampleCb.bStart, sampleCb.x, sampleCb.y,
             sampleCb.length⟩] :=
  ((callback_cache_behavior samplePx sampleState sampleCb).2 rfl).1

/-- C10: whatever the oracle decides, the callback touches nothing but the
points cache: parameters, jump-table arrays, problem id, configuration,
running flag and engine handle are unchanged. -/
theorem callback_frame (px : PointExistsFn) (st : GlobalState)
    (cb : CallbackParameters) :
    (pointFoundCallback px st cb).params = st.params ∧
    (pointFoundCallback px st cb).rx = st.rx ∧
    (pointFoundCallback px st cb).ry = st.ry ∧
    (pointFoundCallback px st cb).idStr = st.idStr ∧
    (pointFoundCallback px st cb).config = st.config ∧
    (pointFoundCallback px st cb).running = st.running ∧
    (pointFoundCallback px st cb).context = st.context := by
  cases h : verifyPoint px st cb.x cb.y <;>
    simp [pointFoundCallback, addPointToCache, h]

/-- C5: the four transitions of the poll-loop state machine: `RUNNING` with
no context and a successful fetch performs exactly one `init`-plus-`run`
launch and does not exit; `RUNNING` with a context whose engine reports
running changes nothing; `STOPPED` stops the engine exactly once when one
exists (zero times otherwise) and breaks out of the loop; any other status
changes nothing and continues to the next poll. -/
theorem poll_state_machine :
    (∀ (st : GlobalState) (env : PollEnv),
      env.status = StatusResult.ok ServerStatus.running → st.context = none →
      env.paramsMsg.isSome = true →
      (pollIter st env).2.initLaunches = 1 ∧
      (pollIter st env).2.relaunches = 0 ∧
      (pollIter st env).1.context = some env.newHandle ∧
      (pollIter st env).2.exitLoop = false) ∧
    (∀ (st : GlobalState) (env : PollEnv),
      env.status = StatusResult.ok ServerStatus.running →
      st.context.isSome = true → env.engineRunning = true →
      pollIter st env = (st, { noPollEffects with sleep300 := true })) ∧
    (∀ (st : GlobalState) (env : PollEnv),
      env.status = StatusResult.ok ServerStatus.stopped →
      (pollIter st env).1 = st ∧
      (pollIter st env).2.stops = (if st.context.isSome then 1 else 0) ∧
      (pollIter st env).2.exitLoop = true) ∧
    (∀ (st : GlobalState) (env : PollEnv),
      env.status = StatusResult.ok ServerStatus.other →
      pollIter st env = (st, { noPollEffects with sleep300 := true })) := by
  refine ⟨?_, ?_, ?_, ?_⟩
  · intro st env hs hc hm
    obtain ⟨m, hm'⟩ := Option.isSome_iff_exists.mp hm
    simp [pollIter, hs, hc, hm', getParameters, noPollEffects]
  · intro st env hs hc he
    obtain ⟨c, hc'⟩ := Option.isSome_iff_exists.mp hc
    simp [pollIter, hs, hc', he]
  · intro st env hs
    cases hc : st.context <;> simp [pollIter, hs, hc, noPollEffects]
  · intro st env hs
    simp [pollIter, hs]

/-- Witness for C5 at the sample no-engine state with a `RUNNING` reply. -/
theorem poll_state_machine_witness :
    (pollIter sampleState sampleEnvRun).2.initLaunches = 1 ∧
    (pollIter sampleState sampleEnvRun).2.relaunches = 0 ∧
    (pollIter sampleState sampleEnvRun).1.context = some sampleEnvRun.newHandle ∧
    (pollIter sampleState sampleEnvRun).2.exitLoop = false :=
  poll_state_machine.1 sampleState sampleEnvRun rfl rfl rfl

/-- Helper: a poll iteration never destroys an existing engine handle. -/
theorem pollIter_context_mono (st : GlobalState) (env : PollEnv)
    (h : st.context.isSome = true) :
    ((pollIter st env).1).context.isSome = true := by
  obtain ⟨status, pm, er, nh⟩ := env
  cases status with
  | err => simpa [pollIter] using h
  | ok s =>
      cases s <;> cases hc : st.context <;> cases pm <;> cases er <;>
        simp_all [pollIter, getParameters, noPollEffects]

/-- Helper: a poll iteration on a state that already has an engine handle
never reports a successful parameter fetch. -/
theorem pollIter_no_fetch_of_some (st : GlobalState) (env : PollEnv)
    (h : st.context.isSome = true) :
    (pollIter st env).2.fetchSucceeded = false := by
  obtain ⟨status, pm, er, nh⟩ := env
  cases status with
  | err => simp [pollIter, noPollEffects]
  | ok s =>
      cases s <;> cases hc : st.context <;> cases pm <;> cases er <;>
        simp_all [pollIter, getParameters, noPollEffects]

/-- Helper: after a successful fetch the engine handle is non-null. -/
theorem pollIter_fetch_gives_context (st : GlobalState) (env : PollEnv)
    (h : (pollIter st env).2.fetchSucceeded = true) :
    ((pollIter st env).1).context.isSome = true := by
  obtain ⟨status, pm, er, nh⟩ := env
  cases status with
  | err => simp [pollIter, noPollEffects] at h
  | ok s =>
      cases s <;> cases hc : st.context <;> cases pm <;> cases er <;>
        simp_all [pollIter, getParameters, noPollEffects]

/-- Helper: a poll run starting with an engine handle present performs no
successful fetch at all. -/
theorem pollRun_countFetch_zero (envs : List PollEnv) :
    ∀ st : GlobalState, st.context.isSome = true →
      countFetchSuccess (pollRun st envs).2 = 0 := by
  induction envs with
  | nil => intro st _; simp [pollRun, countFetchSuccess]
  | cons env rest ih =>
      intro st h
      by_cases hr : st.running = true
      · have hf := pollIter_no_fetch_of_some st env h
        have hm := pollIter_context_mono st env h
        by_cases hx : (pollIter st env).2.exitLoop = true
        · simp [pollRun, hr, hx, countFetchSuccess, List.filter_cons, hf]
        · have h0 := ih (pollIter st env).1 hm
          simp only [countFetchSuccess] at h0
          simp [pollRun, hr, hx, countFetchSuccess, List.filter_cons, hf, h0]
      · simp [pollRun, hr, countFetchSuccess]

/-- Helper: across any poll run, at most one parameter fetch succeeds. -/
theorem pollRun_countFetch_le_one (envs : List PollEnv) :
    ∀ st : GlobalState, countFetchSuccess (pollRun st envs).2 ≤ 1 := by
  induction envs with
  | nil => intro st; simp [pollRun, countFetchSuccess]
  | cons env rest ih =>
      intro st
      by_cases hr : st.running = true
      · by_cases hx : (pollIter st env).2.exitLoop = true
        · cases hf : (pollIter st env).2.fetchSucceeded <;>
            simp [pollRun, hr, hx, countFetchSuccess, List.filter_cons, hf]
        · cases hf : (pollIter st env).2.fetchSucceeded
          · have := ih (pollIter st env).1
            simp only [countFetchSuccess] at this
            simp [pollRun, hr, hx, countFetchSuccess, List.filter_cons, hf, this]
          · have h0 := pollRun_countFetch_zero rest (pollIter st env).1
              (pollIter_fetch_gives_context st env hf)
            simp only [countFetchSuccess] at h0
            simp [pollRun, hr, hx, countFetchSuccess, List.filter_cons, hf, h0]
      · simp [pollRun, hr, countFetchSuccess]

/-- C6: the parameter fetch is attempted only while `_context == NULL`; a
failed fetch changes nothing (so it is retried on the next cycle); a
successful fetch leaves the handle non-null; and consequently any poll run
contains at most one successful fetch. -/
theorem params_fetched_once :
    (∀ (st : GlobalState) (env : PollEnv),
      (pollIter st env).2.fetchAttempted = true → st.context = none) ∧
    (∀ (st : GlobalState) (env : PollEnv),
      (pollIter st env).2.fetchAttempted = true →
      (pollIter st env).2.fetchSucceeded = false →
      (pollIter st env).1 = st) ∧
    (∀ (st : GlobalState) (env : PollEnv),
      (pollIter st env).2.fetchSucceeded = true →
      ((pollIter st env).1).context.isSome = true) ∧
    (∀ (st : GlobalState) (envs : List PollEnv),
      countFetchSuccess (pollRun st envs).2 ≤ 1) := by
  refine ⟨?_, ?_, fun st env h => pollIter_fetch_gives_context st env h,
    fun st envs => pollRun_countFetch_le_one envs st⟩
  · intro st env h
    obtain ⟨status, pm, er, nh⟩ := env
    cases status with
    | err => simp [pollIter, noPollEffects] at h
    | ok s =>
        cases s <;> cases hc : st.context <;> cases pm <;> cases er <;>
          simp_all [pollIter, getParameters, noPollEffects]
  · intro st env h hf
    obtain ⟨status, pm, er, nh⟩ := env
    cases status with
    | err => simp [pollIter, noPollEffects] at h
    | ok s =>
        cases s <;> cases hc : st.context <;> cases pm <;> cases er <;>
          simp_all [pollIter, getParameters, noPollEffects]

/-- Witness for C6: the sample state has no engine, and a two-cycle run
fetches at most once. -/
theorem params_fetched_once_witness :
    sampleState.context = none ∧
    countFetchSuccess (pollRun sampleState [sampleEnvRun, sampleEnvRun]).2 ≤ 1 :=
  ⟨params_fetched_once.1 sampleState sampleEnvRun rfl,
   params_fetched_once.2.2.2 sampleState [sampleEnvRun, sampleEnvRun]⟩

/-- C7: when `getStatus` throws, the iteration logs, sleeps 60 s and
`continue`s: the state is untouched and the effects are exactly the
60-second backoff — no launch, no stop, no fetch, no loop exit. -/
theorem poll_transport_error (st : GlobalState) (env : PollEnv)
    (h : env.status = StatusResult.err) :
    pollIter st env = (st, { noPollEffects with sleep60 := true }) := by
  simp [pollIter, h]

/-- Witness for C7 at the sample state and a throwing status call. -/
theorem poll_transport_error_witness :
    pollIter sampleState sampleEnvErr
      = (sampleState, { noPollEffects with sleep60 := true }) :=
  poll_transport_error sampleState sampleEnvErr rfl

/-- Helper: no single step (poll iteration, pump iteration, or callback)
modifies the `_running` flag. -/
theorem stepRun_running (st : GlobalState) (s : Step) :
    (stepRun st s).running = st.running := by
  cases s with
  | poll env =>
      obtain ⟨status, pm, er, nh⟩ := env
      cases status with
      | err => simp [stepRun, pollIter]
      | ok s' =>
          cases s' <;> cases hc : st.context <;> cases pm <;> cases er <;>
            simp_all [stepRun, pollIter, getParameters, noPollEffects]
  | pump submitOk =>
      by_cases h : st.config.pointCacheSize ≤ st.pointsCache.length <;>
        cases submitOk <;> simp [stepRun, pumpIter, h]
  | callback px cb =>
      cases h : verifyPoint px st cb.x cb.y <;>
        simp [stepRun, pointFoundCallback, addPointToCache, h]

/-- Helper: the `_running` flag survives any sequence of steps. -/
theorem runSteps_running (steps : List Step) :
    ∀ st : GlobalState, (runSteps st steps).running = st.running := by
  induction steps with
  | nil => intro st; simp [runSteps]
  | cons s rest ih =>
      intro st
      calc (runSteps (stepRun st s) rest).running
          = (stepRun st s).running := ih (stepRun st s)
        _ = st.running := stepRun_running st s

/-- C8: `_running` is `true` at startup and set `true` again on entering
`pollConnections`, and no reachable operation ever assigns it `false`, so
under every interleaving of poll, pump and callback steps the pump's loop
guard stays `true`. -/
theorem running_never_cleared (st : GlobalState) (steps : List Step) :
    (runSteps (pollEntry st) steps).running = true ∧
    pumpLoopCond (runSteps (pollEntry st) steps) = true := by
  have h : (runSteps (pollEntry st) steps).running = true := by
    rw [runSteps_running steps (pollEntry st)]
    rfl
  exact ⟨h, h⟩

/-- C9: a failed config load exits 1 before anything runs; on the CUDA
build a failed device check exits 1; once startup succeeds, no positional
argument prints usage and exits 0 without contacting the server, and a
leading `-b` runs the benchmark and exits 0 without contacting the
server. -/
theorem main_startup_behavior :
    (∀ (cudaBuild cudaOk : Bool) (args : List String),
      mainRun none cudaBuild cudaOk args = ⟨1, false, false, false⟩) ∧
    (∀ (c : ClientConfig) (args : List String),
      mainRun (some c) true false args = ⟨1, false, false, false⟩) ∧
    (∀ (c : ClientConfig) (cudaBuild cudaOk : Bool),
      (cudaBuild = true → cudaOk = true) →
      mainRun (some c) cudaBuild cudaOk [] = ⟨0, true, false, false⟩) ∧
    (∀ (c : ClientConfig) (cudaBuild cudaOk : Bool) (rest : List String),
      (cudaBuild = true → cudaOk = true) →
      mainRun (some c) cudaBuild cudaOk ("-b" :: rest)
        = ⟨0, false, true, false⟩) := by
  refine ⟨fun _ _ _ => rfl, fun _ _ => rfl, ?_, ?_⟩
  · intro c cudaBuild cudaOk h
    cases cudaBuild with
    | false => simp [mainRun]
    | true => have hok := h rfl; subst hok; simp [mainRun]
  · intro c cudaBuild cudaOk rest h
    cases cudaBuild with
    | false => simp [mainRun]
    | true => have hok := h rfl; subst hok; simp [mainRun]

/-- Witness for C9 on the CPU build with the sample configuration. -/
theorem main_startup_behavior_witness :
    mainRun (some sampleConfig) false true [] = ⟨0, true, false, false⟩ ∧
    mainRun (some sampleConfig) false true ["-b"] = ⟨0, false, true, false⟩ :=
  ⟨main_startup_behavior.2.2.1 sampleConfig false true (by decide),
   main_startup_behavior.2.2.2 sampleConfig false true [] (by decide)⟩

/-- Witness for C8: a concrete interleaving keeps the flag true. -/
theorem running_never_cleared_witness :
    (runSteps (pollEntry sampleState)
        [Step.pump true, Step.callback samplePx sampleCb]).running = true ∧
    pumpLoopCond (runSteps (pollEntry sampleState)
        [Step.pump true, Step.callback samplePx sampleCb]) = true :=
  running_never_cleared sampleState [Step.pump true, Step.callback samplePx sampleCb]

/-- Witness for C10 at the sample state and candidate. -/
theorem callback_frame_witness :
    (pointFoundCallback samplePx sampleState sampleCb).params = sampleState.params ∧
    (pointFoundCallback samplePx sampleState sampleCb).rx = sampleState.rx ∧
    (pointFoundCallback samplePx sampleState sampleCb).ry = sampleState.ry ∧
    (pointFoundCallback samplePx sampleState sampleCb).idStr = sampleState.idStr ∧
    (pointFoundCallback samplePx sampleState sampleCb).config = sampleState.config ∧
    (pointFoundCallback samplePx sampleState sampleCb).running = sampleState.running ∧
    (pointFoundCallback samplePx sampleState sampleCb).context = sampleState.context :=
  callback_frame samplePx sampleState sampleCb
